import Mathlib

/-!
Verification of the streaming audio core of the GUI-Project repository
(PSoC Edge PDM-to-I2S recorder/player).  The definitions below are shallow
embeddings of the C functions in proj_cm33_ns: the WAV container codec
(wav_file.c, emfile_sd.c), the capture monitor (audio_record_task.c together
with the PDM interrupt handler in app_pdm_pcm.c), the storage-write pipeline
(file_write_task.c, emfile_sd.c), the playback pipelines (playback_task.c in
both variants, file_read_task.c, app_i2s.c) and the command handlers of
audio_control_task.c.  Machine integers are modelled as Nat with an explicit
mod 2^32 (resp. 2^16) wherever the C computation can overflow.
-/

namespace GuiProject

/-! Constants, taken verbatim from the C headers:
wav_file.h, app_pdm_pcm.h, app_i2s.h, file_read_task.h, playback_task.h,
emfile_sd.c. -/

def U32_MOD : Nat := 2 ^ 32

def U16_MOD : Nat := 2 ^ 16

def WAV_HEADER_SIZE : Nat := 44

def WAV_SAMPLE_RATE : Nat := 16000

def WAV_BITS_PER_SAMPLE : Nat := 16

def WAV_NUM_CHANNELS : Nat := 2

/-- SAMPLE_RATE_HZ = TLV320DAC3100_DAC_SAMPLE_RATE_16_KHZ (app_i2s.h). -/
def SAMPLE_RATE_HZ : Nat := 16000

def NUM_CHANNELS : Nat := 2

def RECORDING_DURATION_SEC : Nat := 4

/-- BUFFER_SIZE = RECORDING_DURATION_SEC * SAMPLE_RATE_HZ (app_pdm_pcm.h). -/
def BUFFER_SIZE : Nat := RECORDING_DURATION_SEC * SAMPLE_RATE_HZ

def PDM_HW_FIFO_SIZE : Nat := 64

/-- RX_FIFO_TRIG_LEVEL = PDM_HW_FIFO_SIZE / 2 (app_pdm_pcm.h). -/
def RX_FIFO_TRIG_LEVEL : Nat := PDM_HW_FIFO_SIZE / 2

def I2S_HW_FIFO_SIZE : Nat := 128

/-- HW_FIFO_HALF_SIZE = I2S_HW_FIFO_SIZE / 2 (app_i2s.h). -/
def HW_FIFO_HALF_SIZE : Nat := I2S_HW_FIFO_SIZE / 2

/-- WAV_CHUNK_SIZE = 8 * 1024 (emfile_sd.c), chunked payload writing. -/
def WAV_CHUNK_SIZE : Nat := 8 * 1024

def PCM_CHUNK_SIZE : Nat := 4096

def PLAYBACK_CHUNK_SIZE : Nat := 4096

/-! The WAV container header.  wav_header_t (wav_file.h) and WAV_HEADER_t
(emfile_sd.c) are two packed C structs with the identical 44-byte
little-endian layout (the on-disk image checked by the static assert in
emfile_sd.c); both are represented by this one structure, using the field
names of wav_file.h (emfile_sd.c's riff_id/chunk_size/wave_id/fmt_id/
subchunk1_size/subchunk2_size correspond to riff_header/wav_size/wave_header/
fmt_header/fmt_chunk_size/data_bytes).  The four-character tags are kept as
lists of characters; the numeric fields are the uint16/uint32 values. -/

structure wav_header_t where
  riff_header : List Char
  wav_size : Nat
  wave_header : List Char
  fmt_header : List Char
  fmt_chunk_size : Nat
  audio_format : Nat
  num_channels : Nat
  sample_rate : Nat
  byte_rate : Nat
  block_align : Nat
  bits_per_sample : Nat
  data_header : List Char
  data_bytes : Nat
deriving Repr, DecidableEq

def riffTag : List Char := ['R', 'I', 'F', 'F']

def waveTag : List Char := ['W', 'A', 'V', 'E']

def fmtTag : List Char := ['f', 'm', 't', ' ']

def dataTag : List Char := ['d', 'a', 't', 'a']

/-- wav_header_init (wav_file.c): builds the fixed 16 kHz / 16-bit / stereo
header; `total_samples` is the uint32 argument the caller passes (the doc
comment of the C function says it should be a per-channel count).
data_bytes = total_samples * WAV_NUM_CHANNELS * (WAV_BITS_PER_SAMPLE/8)
in uint32 arithmetic. -/
def wav_header_init (total_samples : Nat) : wav_header_t :=
  let data_bytes := (total_samples * WAV_NUM_CHANNELS * (WAV_BITS_PER_SAMPLE / 8)) % U32_MOD
  let byte_rate := (WAV_SAMPLE_RATE * WAV_NUM_CHANNELS * (WAV_BITS_PER_SAMPLE / 8)) % U32_MOD
  { riff_header := riffTag
    wav_size := (36 + data_bytes) % U32_MOD
    wave_header := waveTag
    fmt_header := fmtTag
    fmt_chunk_size := 16
    audio_format := 1
    num_channels := WAV_NUM_CHANNELS
    sample_rate := WAV_SAMPLE_RATE
    byte_rate := byte_rate
    block_align := WAV_NUM_CHANNELS * (WAV_BITS_PER_SAMPLE / 8)
    bits_per_sample := WAV_BITS_PER_SAMPLE
    data_header := dataTag
    data_bytes := data_bytes }

/-- parse_wav_header (file_read_task.c): validates the header read from the
file and on success yields the total sample count (both channels counted),
data_bytes / sizeof(int16_t).  A sample-rate mismatch only prints a warning
(between the audio-format and channel checks) and does not affect the
result, so it does not appear in the control flow below. -/
def parse_wav_header (h : wav_header_t) : Option Nat :=
  if h.riff_header ≠ riffTag then none
  else if h.wave_header ≠ waveTag then none
  else if h.audio_format ≠ 1 then none
  else if h.num_channels ≠ WAV_NUM_CHANNELS then none
  else if h.bits_per_sample ≠ WAV_BITS_PER_SAMPLE then none
  else some (h.data_bytes / 2)

/-- playback_parse_wav_header (playback_task.c): same validation chain as
parse_wav_header (again the sample-rate check is a non-fatal warning), but
on success yields the per-channel sample count,
data_bytes / (WAV_NUM_CHANNELS * (WAV_BITS_PER_SAMPLE/8)). -/
def playback_parse_wav_header (h : wav_header_t) : Option Nat :=
  if h.riff_header ≠ riffTag then none
  else if h.wave_header ≠ waveTag then none
  else if h.audio_format ≠ 1 then none
  else if h.num_channels ≠ WAV_NUM_CHANNELS then none
  else if h.bits_per_sample ≠ WAV_BITS_PER_SAMPLE then none
  else some (h.data_bytes / (WAV_NUM_CHANNELS * (WAV_BITS_PER_SAMPLE / 8)))

/-- Condition under which both header parsers accept a header: the RIFF tag,
the WAVE tag, audio-format = 1 (PCM), the channel count and the
bits-per-sample all match the expected values.  The sample rate is absent:
its mismatch is a non-fatal warning in both parsers. -/
def wav_header_accepted (h : wav_header_t) : Prop :=
  h.riff_header = riffTag ∧ h.wave_header = waveTag ∧ h.audio_format = 1 ∧
    h.num_channels = WAV_NUM_CHANNELS ∧ h.bits_per_sample = WAV_BITS_PER_SAMPLE

instance (h : wav_header_t) : Decidable (wav_header_accepted h) := by
  unfold wav_header_accepted; infer_instance

/-- Header construction of app_wav_save_from_buffer (emfile_sd.c lines
497-546): validates channels (1..8) and bits (8 or 16), then fills the
WAV_HEADER_t in uint32/uint16 arithmetic.  Returns none exactly when the
C function returns false before opening the file. -/
def app_wav_build_header (num_samples_per_channel sample_rate_hz num_channels
    bits_per_sample : Nat) : Option wav_header_t :=
  if num_channels = 0 ∨ 8 < num_channels then none
  else if bits_per_sample ≠ 8 ∧ bits_per_sample ≠ 16 then none
  else
    let bytes_per_sample := bits_per_sample / 8
    let total_samples := (num_samples_per_channel * num_channels) % U32_MOD
    let subchunk2_size := (total_samples * bytes_per_sample) % U32_MOD
    let byte_rate := (sample_rate_hz * num_channels * bytes_per_sample) % U32_MOD
    let block_align := (num_channels * bytes_per_sample) % U16_MOD
    some
      { riff_header := riffTag
        wav_size := (36 + subchunk2_size) % U32_MOD
        wave_header := waveTag
        fmt_header := fmtTag
        fmt_chunk_size := 16
        audio_format := 1
        num_channels := num_channels % U16_MOD
        sample_rate := sample_rate_hz % U32_MOD
        byte_rate := byte_rate
        block_align := block_align
        bits_per_sample := bits_per_sample % U16_MOD
        data_header := dataTag
        data_bytes := subchunk2_size }

/-! The Completed-Capture Record (audio_record_msg_t, audio_record_task.h)
and the storage-write step of file_write_task.c (the emFile variant, lines
212-285): the header comes from wav_header_init applied to the record's
sample_count alone, the payload written is sample_count * sizeof(int16_t)
bytes, and the file on success holds the 44-byte header followed by the
payload. -/

structure audio_record_msg_t where
  sample_count : Nat
  sample_rate : Nat
  num_channels : Nat
deriving Repr, DecidableEq

def file_write_header (msg : audio_record_msg_t) : wav_header_t :=
  wav_header_init msg.sample_count

/-- data_bytes = record_msg.sample_count * sizeof(int16_t), uint32. -/
def file_write_payload_bytes (msg : audio_record_msg_t) : Nat :=
  (msg.sample_count * 2) % U32_MOD

def file_write_file_bytes (msg : audio_record_msg_t) : Nat :=
  WAV_HEADER_SIZE + file_write_payload_bytes msg

/-! Capture monitor (audio_record_task.c lines 117-148, with the PDM
interrupt handler of app_pdm_pcm.c lines 624-648).  Each PDM interrupt
appends RX_FIFO_TRIG_LEVEL stereo pairs, i.e. 2 * RX_FIFO_TRIG_LEVEL = 64
int16 samples, to the capture buffer without any bound check; the record
task polls get_audio_data_index between 100 ms sleeps and, when the value
read is at least NUM_CHANNELS * BUFFER_SIZE, deactivates the PDM and emits
one Completed-Capture Record carrying exactly the value it read.  A capture
run with no stop command is therefore determined by the interleaving of ISR
firings and polls: `sched` lists, for each poll of the monitor loop, how
many interrupts fired since the previous poll. -/

def pdm_isr_samples : Nat := NUM_CHANNELS * RX_FIFO_TRIG_LEVEL

def capture_capacity : Nat := NUM_CHANNELS * BUFFER_SIZE

/-- audio_record_task monitoring loop without a stop command: returns the
sample count of the emitted Completed-Capture Record (some), or none if the
schedule ended before the buffer-full condition was observed.  The loop
breaks right after emitting, so at most one record is produced. -/
def audio_record_monitor : List Nat → Nat → Option Nat
  | [], _ => none
  | k :: rest, idx =>
    let idx := idx + k * pdm_isr_samples
    if capture_capacity ≤ idx then some idx else audio_record_monitor rest idx

/-! Control state machine (audio_control_task.c).  The observable flags:
EVENT_IDLE, EVENT_RECORDING, EVENT_PLAYING of the event group and the
local recording_active boolean. -/

structure control_state where
  event_idle : Bool
  event_recording : Bool
  event_playing : Bool
  recording_active : Bool
deriving Repr, DecidableEq

/-- handle_stop_record (audio_control_task.c lines 74-103): rejected while
not recording, with no state change; otherwise deactivates the PDM, clears
recording_active and EVENT_RECORDING, and sets EVENT_IDLE. -/
def handle_stop_record (s : control_state) : control_state :=
  if s.recording_active = false then s
  else { s with recording_active := false, event_recording := false, event_idle := true }

/-- handle_play_file (audio_control_task.c lines 142-154): unconditionally
clears EVENT_IDLE and then (the playback hand-off being a stub) sets
EVENT_IDLE again — there is no check of the recording/playing state. -/
def handle_play_file (s : control_state) : control_state :=
  let s1 := { s with event_idle := false }
  { s1 with event_idle := true }

/-! Playback Sink drain (i2s_tx_interrupt_handler, app_i2s.c lines 177-232).
Each loop iteration of the FIFO-trigger branch writes one stereo pair and
executes `playback_samples_remaining -= 2` on the volatile uint32 counter
whenever it is still positive; one interrupt runs HW_FIFO_HALF_SIZE / 2
such iterations. -/

/-- One iteration of the FIFO fill loop acting on playback_samples_remaining:
uint32 subtraction of 2 when the counter is positive (so a counter of 1
wraps to 2^32 - 1), identity once it is zero. -/
def i2s_write_pair (r : Nat) : Nat :=
  if 0 < r then (r + (U32_MOD - 2)) % U32_MOD else r

/-- playback_samples_remaining after k iterations of the FIFO fill loop. -/
def i2s_drain : Nat → Nat → Nat
  | 0, r => r
  | k + 1, r => i2s_drain k (i2s_write_pair r)

/-- One I2S TX interrupt runs HW_FIFO_HALF_SIZE / 2 fill-loop iterations. -/
def i2s_tx_interrupt_remaining (r : Nat) : Nat :=
  i2s_drain (HW_FIFO_HALF_SIZE / 2) r

/-! Playback waits.  playback_task.c (single-task variant) lines 184-229:
the streaming loop waits for the active buffer with
`while (playback_samples_remaining > 0 && timeout_count < 1000) delay 10ms`
and aborts on timeout, but the final-buffer wait (lines 227-229) is
`while (playback_samples_remaining > 0) delay 10ms` with no bound; the
split-variant feeder (part_003 playback_task lines 72-75) waits with
`while (playback_samples_remaining > 0 && playback_active) delay 50ms`,
also with no bound.  A wait is modelled against the trace of values the
poll reads: `trace k` is the remaining count seen by the k-th poll. -/

/-- Bounded wait of the single-task streaming loop: starting from
timeout_count = t with `fuel` increments still allowed, returns the final
timeout_count (the index of the first poll that saw 0, or t + fuel on
timeout). -/
def playback_timeout_wait (trace : Nat → Nat) : Nat → Nat → Nat
  | 0, t => t
  | fuel + 1, t => if 0 < trace t then playback_timeout_wait trace fuel (t + 1) else t

/-- The streaming-loop wait as coded: timeout_count from 0, limit 1000. -/
def playback_inner_wait (trace : Nat → Nat) : Nat :=
  playback_timeout_wait trace 1000 0

/-- Termination condition of the unbounded final-buffer wait of
playback_task.c lines 227-229: the loop exits iff some poll reads 0. -/
def playback_final_wait_terminates (trace : Nat → Nat) : Prop :=
  ∃ k, trace k = 0

/-- Termination condition of the unbounded drain wait of the split-variant
feeder (part_003 lines 72-75): the loop exits iff some poll reads a zero
remaining count or a cleared playback_active flag. -/
def feeder_drain_wait_terminates (remaining : Nat → Nat) (active : Nat → Bool) : Prop :=
  ∃ k, remaining k = 0 ∨ active k = false

/-! File naming (emfile_sd.c lines 308-351).  app_emfile_next_filename is
declared in emfile_sd.h and called from emfile_sd.c and main.c but its
definition is not part of the sources at hand; it is modelled from the
spec below.  app_emfile_find_available_filename probes candidates against
the Byte Store (FS_FOpen for read succeeding means the name is taken),
incrementing the counter, for at most max_retries = 10 attempts. -/

/-- Modelled from the spec: app_emfile_next_filename (definition missing
from the sources; declared in emfile_sd.h).  Per the spec's naming policy
and the header's doc comment it formats a fixed prefix plus a zero-padded
4-digit counter plus the extension: "rec_XXXX.wav". -/
def app_emfile_next_filename (counter : Nat) : String :=
  let s := toString counter
  "rec_" ++ (String.mk (List.replicate (4 - s.length) '0') ++ s) ++ ".wav"

/-- app_emfile_find_available_filename: `exists_file` is the Byte Store
probe (FS_FOpen "rb" succeeds), `fuel` the remaining retries (called with
max_retries = 10), `counter` the current _file_counter, `collisions` the
number of taken names seen so far.  Returns the found name together with
the collision count, or none when all retries are exhausted (no file is
ever created by this function: it only probes). -/
def app_emfile_find_available_filename (exists_file : String → Bool) :
    Nat → Nat → Nat → Option (String × Nat)
  | 0, _, _ => none
  | fuel + 1, counter, collisions =>
    let cand := app_emfile_next_filename counter
    if exists_file cand then
      app_emfile_find_available_filename exists_file fuel (counter + 1) (collisions + 1)
    else some (cand, collisions)

/-! Storage-write pipeline of app_wav_save_from_buffer (emfile_sd.c lines
594-676): open, header write, chunked payload writes, FS_SyncFile, close.
The Byte Store's responses are an oracle; the code only compares each
FS_FWrite return value against the requested byte count, so a response is
modelled as whether the i-th write reported the full requested count. -/

structure byte_store_responses where
  mounted : Bool
  open_ok : Bool
  write_ok : Nat → Bool
  sync_ok : Bool
  close_ok : Bool

/-- Outcome of a save: the reported result, whether FS_FOpen succeeded
(a handle existed), whether FS_FClose was called on it, and whether the
FS_SyncFile warning was printed. -/
structure wav_save_outcome where
  success : Bool
  opened : Bool
  closed : Bool
  sync_warned : Bool
deriving Repr, DecidableEq

/-- Payload chunk loop of app_wav_save_from_buffer: writes
min(WAV_CHUNK_SIZE / bytes_per_sample, remaining) samples per FS_FWrite
until none remain, aborting on the first short write.  `idx` numbers the
FS_FWrite calls (the header was call 0).  Structural fuel: the caller
passes the initial remaining count, which suffices because each iteration
consumes at least one sample for bytes_per_sample ≥ 1.  Returns the next
call index on completion, none on a failed write. -/
def wav_save_chunk_loop (resp : byte_store_responses) (bytes_per_sample : Nat) :
    Nat → Nat → Nat → Option Nat
  | 0, _, idx => some idx
  | fuel + 1, remaining, idx =>
    if remaining = 0 then some idx
    else
      let samples_to_write :=
        if WAV_CHUNK_SIZE / bytes_per_sample < remaining then WAV_CHUNK_SIZE / bytes_per_sample
        else remaining
      if resp.write_ok idx then
        wav_save_chunk_loop resp bytes_per_sample fuel (remaining - samples_to_write) (idx + 1)
      else none

/-- app_wav_save_from_buffer (emfile_sd.c): parameter validation, open,
header write (abort and close on short write), chunked payload writes
(abort and close on short write), FS_SyncFile (a non-zero result is only
logged as a warning), FS_FClose (a non-zero result makes the save report
failure).  The NULL-pointer check on pcm/filename is outside this model
(pointers are not represented). -/
def app_wav_save_from_buffer (resp : byte_store_responses)
    (num_samples_per_channel sample_rate_hz num_channels bits_per_sample : Nat) :
    wav_save_outcome :=
  if resp.mounted = false then ⟨false, false, false, false⟩
  else if num_channels = 0 ∨ 8 < num_channels then ⟨false, false, false, false⟩
  else if bits_per_sample ≠ 8 ∧ bits_per_sample ≠ 16 then ⟨false, false, false, false⟩
  else if resp.open_ok = false then ⟨false, false, false, false⟩
  else if resp.write_ok 0 = false then ⟨false, true, true, false⟩
  else
    let bytes_per_sample := bits_per_sample / 8
    let total_samples := (num_samples_per_channel * num_channels) % U32_MOD
    match wav_save_chunk_loop resp bytes_per_sample total_samples total_samples 1 with
    | none => ⟨false, true, true, false⟩
    | some _ =>
      if resp.close_ok = false then ⟨false, true, true, !resp.sync_ok⟩
      else ⟨true, true, true, !resp.sync_ok⟩

/-! Theorems. -/

/-- C1: evaluation of the storage-write pipeline on the end-to-end scenario
(a Completed-Capture Record of 32000 total samples, 16000 per channel,
2 channels).  The saved file is indeed 44 + 64000 = 64044 bytes and the
header declares 16000 Hz, 2 channels, 16 bits; but the header's declared
payload byte count is 128000, not the 64000 payload bytes actually written:
file_write_task passes the total sample count to wav_header_init, which
multiplies it by the channel count again, while the payload write uses
sample_count * sizeof(int16_t).  The claimed invariant "declared payload
byte count = payload bytes written" fails at this input. -/
theorem c1_end_to_end_save_eval :
    file_write_file_bytes ⟨32000, 16000, 2⟩ = 64044 ∧
    (file_write_header ⟨32000, 16000, 2⟩).sample_rate = 16000 ∧
    (file_write_header ⟨32000, 16000, 2⟩).num_channels = 2 ∧
    (file_write_header ⟨32000, 16000, 2⟩).bits_per_sample = 16 ∧
    file_write_payload_bytes ⟨32000, 16000, 2⟩ = 64000 ∧
    (file_write_header ⟨32000, 16000, 2⟩).data_bytes = 128000 ∧
    (file_write_header ⟨32000, 16000, 2⟩).data_bytes ≠
      file_write_payload_bytes ⟨32000, 16000, 2⟩ := by
  refine ⟨by decide, rfl, rfl, rfl, by decide, by decide, by decide⟩

/-- C2: evaluation of the capture monitor at a schedule in which 2001 PDM
interrupts (2001 * 64 = 128064 samples) fire before the monitor task's
next poll.  Exactly one Completed-Capture Record is emitted, but it carries
sample count 128064, which exceeds the capture-buffer capacity
NUM_CHANNELS * BUFFER_SIZE = 128000: the interrupt handler appends samples
with no bound check and the 100 ms poll only observes the overshoot after
the fact. -/
theorem c2_overflow_record_eval :
    audio_record_monitor [2001] 0 = some 128064 ∧
    capture_capacity = 128000 ∧
    capture_capacity < 128064 := by
  refine ⟨by decide, by decide, by decide⟩

/-- C3 counterexample: issuing play while the state machine is Recording
(EVENT_IDLE clear, EVENT_RECORDING set, recording_active set) is not
rejected and does change the state: handle_play_file unconditionally ends
by setting EVENT_IDLE, so the Idle flag is raised while the Recording flag
is still set. -/
theorem c3_play_while_recording_changes_state :
    handle_play_file ⟨false, true, false, true⟩ ≠ ⟨false, true, false, true⟩ := by
  decide

/-- C3 amended: stop-record while not recording (in particular while Idle)
is rejected and causes no state change; play, however, is not guarded by
the state at all — handle_play_file always runs its body, leaving the
state with EVENT_IDLE set whatever the state was (so play while Recording
is not rejected). -/
theorem c3_stop_idle_rejected_play_unguarded :
    (∀ s : control_state, s.recording_active = false → handle_stop_record s = s) ∧
    (∀ s : control_state, handle_play_file s = { s with event_idle := true }) := by
  constructor
  · intro s h
    simp [handle_stop_record, h]
  · intro s
    rfl

/-- C3 witness: the amended theorem applied at the Idle state and at a
Recording state. -/
theorem c3_witness :
    handle_stop_record ⟨true, false, false, false⟩ = ⟨true, false, false, false⟩ ∧
    handle_play_file ⟨false, true, false, true⟩ = ⟨true, true, false, true⟩ :=
  ⟨c3_stop_idle_rejected_play_unguarded.1 ⟨true, false, false, false⟩ rfl,
   c3_stop_idle_rejected_play_unguarded.2 ⟨false, true, false, true⟩⟩

/-- C10: the WAV header written by file_write_task depends only on the
record's sample_count: its declared rate, channel count and bit depth are
the constants 16000 Hz, 2 channels and 16 bits whatever sample_rate and
num_channels the Completed-Capture Record carries, and two records with
equal sample_count yield identical headers. -/
theorem c10_header_depends_only_on_sample_count :
    ∀ msg : audio_record_msg_t,
      (file_write_header msg).sample_rate = 16000 ∧
      (file_write_header msg).num_channels = 2 ∧
      (file_write_header msg).bits_per_sample = 16 ∧
      ∀ msg2 : audio_record_msg_t, msg2.sample_count = msg.sample_count →
        file_write_header msg2 = file_write_header msg := by
  intro msg
  refine ⟨rfl, rfl, rfl, ?_⟩
  intro msg2 h
  unfold file_write_header
  rw [h]

/-- C10 witness: the theorem applied at a record carrying 48000 Hz mono
metadata, compared against a record with the same count but 8000 Hz and
7 channels. -/
theorem c10_witness :
    (file_write_header ⟨100, 48000, 1⟩).sample_rate = 16000 ∧
    file_write_header ⟨100, 8000, 7⟩ = file_write_header ⟨100, 48000, 1⟩ :=
  ⟨(c10_header_depends_only_on_sample_count ⟨100, 48000, 1⟩).1,
   (c10_header_depends_only_on_sample_count ⟨100, 48000, 1⟩).2.2.2 ⟨100, 8000, 7⟩ rfl⟩

/-- C4 counterexample: the claim's success formula "payload sample count =
payload byte count / bytes-per-sample" is false for one of the two cited
decoders.  On the header of a 2-sample recording (data_bytes = 8),
playback_parse_wav_header succeeds but yields the per-channel count
8 / 4 = 2, not the claimed 8 / 2 = 4. -/
theorem c4_playback_count_formula_fails :
    playback_parse_wav_header (wav_header_init 2) = some 2 ∧
    (wav_header_init 2).data_bytes / (WAV_BITS_PER_SAMPLE / 8) = 4 ∧
    (2 : Nat) ≠ 4 := by
  refine ⟨by decide, by decide, by decide⟩

/-- C4 amended: over all header values, both header parsers fail exactly
when the RIFF tag, the WAVE tag, the audio-format (PCM = 1), the channel
count or the bits-per-sample does not match the expected value; the sample
rate has no effect on the result (its mismatch is only a warning).  On
success the file_read_task parser yields the total payload sample count,
data_bytes / bytes-per-sample, while the playback_task parser yields the
per-channel count, data_bytes / (channels * bytes-per-sample) — not the
claimed payload byte count / bytes-per-sample. -/
theorem c4_parse_wav_header_validation :
    ∀ h : wav_header_t,
      ((parse_wav_header h).isSome ↔ wav_header_accepted h) ∧
      ((playback_parse_wav_header h).isSome ↔ wav_header_accepted h) ∧
      (wav_header_accepted h →
        parse_wav_header h = some (h.data_bytes / (WAV_BITS_PER_SAMPLE / 8))) ∧
      (wav_header_accepted h →
        playback_parse_wav_header h =
          some (h.data_bytes / (WAV_NUM_CHANNELS * (WAV_BITS_PER_SAMPLE / 8)))) ∧
      (∀ r : Nat, parse_wav_header { h with sample_rate := r } = parse_wav_header h) := by
  intro h
  by_cases h1 : h.riff_header = riffTag <;>
    by_cases h2 : h.wave_header = waveTag <;>
      by_cases h3 : h.audio_format = 1 <;>
        by_cases h4 : h.num_channels = 2 <;>
          by_cases h5 : h.bits_per_sample = 16 <;>
            simp [parse_wav_header, playback_parse_wav_header, wav_header_accepted,
              WAV_NUM_CHANNELS, WAV_BITS_PER_SAMPLE, h1, h2, h3, h4, h5]

/-- C4 witness: the validation theorem applied to the header produced by
wav_header_init for a 16000-sample recording. -/
theorem c4_witness :
    wav_header_accepted (wav_header_init 16000) ∧
    parse_wav_header (wav_header_init 16000) =
      some ((wav_header_init 16000).data_bytes / (WAV_BITS_PER_SAMPLE / 8)) :=
  ⟨by decide, (c4_parse_wav_header_validation (wav_header_init 16000)).2.2.1 (by decide)⟩

/-- C5 counterexample: the round-trip fails for a valid mono combination.
The encoder of app_wav_save_from_buffer accepts channels = 1, bits = 16,
but playback_parse_wav_header fatally rejects the resulting header (channel
mismatch against the expected stereo), so decode(encode(...)) does not
succeed for every channels ∈ \x7b1,2\x7d, bits ∈ \x7b8,16\x7d. -/
theorem c5_mono_roundtrip_fails :
    (app_wav_build_header 4 16000 1 16).isSome = true ∧
    Option.bind (app_wav_build_header 4 16000 1 16) playback_parse_wav_header = none := by
  refine ⟨by decide, by decide⟩

/-- C5 amended: the round-trip holds for the stereo 16-bit format the
decoder expects: for channels = 2, bits = 16, any sample rate below 2^32
and any per-channel sample count below 2^30 (so the uint32 payload size
does not overflow), the encoder succeeds, the produced header carries the
given rate, channel count and bit depth, and playback_parse_wav_header
recovers exactly the encoded per-channel sample count.  For channels = 1
or bits = 8 the decoder rejects the encoded header. -/
theorem c5_roundtrip_stereo16 :
    ∀ n rate : Nat, n < 2 ^ 30 → rate < U32_MOD →
      Option.bind (app_wav_build_header n rate 2 16) playback_parse_wav_header = some n ∧
      (app_wav_build_header n rate 2 16).map wav_header_t.sample_rate = some rate ∧
      (app_wav_build_header n rate 2 16).map wav_header_t.num_channels = some 2 ∧
      (app_wav_build_header n rate 2 16).map wav_header_t.bits_per_sample = some 16 := by
  intro n rate hn hrate
  have hch : (2 : Nat) % U16_MOD = 2 := by decide
  have hba : (2 * 2 : Nat) % U16_MOD = 4 := by decide
  have hbi : (16 : Nat) % U16_MOD = 16 := by decide
  have h1 : (n * 2) % U32_MOD = n * 2 := by
    apply Nat.mod_eq_of_lt
    have : (2 : Nat) ^ 30 * 2 ≤ 2 ^ 32 := by norm_num
    unfold U32_MOD
    omega
  have e : app_wav_build_header n rate 2 16 = some
      { riff_header := riffTag
        wav_size := (36 + (n * 2 * 2) % U32_MOD) % U32_MOD
        wave_header := waveTag
        fmt_header := fmtTag
        fmt_chunk_size := 16
        audio_format := 1
        num_channels := 2
        sample_rate := rate % U32_MOD
        byte_rate := (rate * 2 * 2) % U32_MOD
        block_align := 4
        bits_per_sample := 16
        data_header := dataTag
        data_bytes := (n * 2 * 2) % U32_MOD } := by
    simp [app_wav_build_header, hch, hba, hbi, h1]
  have h2 : (n * 2 * 2) % U32_MOD = n * 2 * 2 := by
    apply Nat.mod_eq_of_lt
    have : (2 : Nat) ^ 30 * 4 ≤ 2 ^ 32 := by norm_num
    unfold U32_MOD
    omega
  have hr : rate % U32_MOD = rate := Nat.mod_eq_of_lt hrate
  refine ⟨?_, ?_, ?_, ?_⟩ <;> rw [e] <;>
    simp [playback_parse_wav_header, wav_header_accepted, WAV_NUM_CHANNELS,
      WAV_BITS_PER_SAMPLE, h2, hr]
  omega

/-- C5 witness: the amended round-trip applied at 16000 samples per channel
and 16000 Hz. -/
theorem c5_witness :
    Option.bind (app_wav_build_header 16000 16000 2 16) playback_parse_wav_header =
      some 16000 :=
  (c5_roundtrip_stereo16 16000 16000 (by norm_num) (by decide)).1

/-- Helper for C6: when every candidate the loop can probe is taken, the
retry loop exhausts its fuel and reports failure. -/
lemma find_available_fails_of_all_taken (ex : String → Bool) :
    ∀ (fuel counter collisions : Nat),
      (∀ i, i < fuel → ex (app_emfile_next_filename (counter + i)) = true) →
      app_emfile_find_available_filename ex fuel counter collisions = none := by
  intro fuel
  induction fuel with
  | zero => intro counter collisions _; rfl
  | succ m ih =>
    intro counter collisions hall
    have h0 := hall 0 (Nat.succ_pos m)
    rw [Nat.add_zero] at h0
    simp only [app_emfile_find_available_filename, h0, if_true]
    apply ih
    intro i hi
    have h := hall (i + 1) (by omega)
    rw [show counter + (i + 1) = counter + 1 + i by omega] at h
    exact h

/-- The nine names the C6 scenario assumes are already present on the
Byte Store. -/
def rec_taken_files : List String :=
  ["rec_0000.wav", "rec_0001.wav", "rec_0002.wav", "rec_0003.wav", "rec_0004.wav",
   "rec_0005.wav", "rec_0006.wav", "rec_0007.wav", "rec_0008.wav"]

/-- C6: with rec_0000.wav .. rec_0008.wav present and the counter at 0, the
naming-retry loop succeeds with rec_0009.wav after exactly 9 collisions;
and whenever 10 consecutive candidate names are all taken, the loop returns
failure (it never creates a file: it only probes with read-opens). -/
theorem c6_find_available_filename :
    app_emfile_find_available_filename (fun s => rec_taken_files.contains s) 10 0 0 =
      some ("rec_0009.wav", 9) ∧
    ∀ (ex : String → Bool) (counter : Nat),
      (∀ i, i < 10 → ex (app_emfile_next_filename (counter + i)) = true) →
      app_emfile_find_available_filename ex 10 counter 0 = none := by
  refine ⟨by decide, ?_⟩
  intro ex counter h
  exact find_available_fails_of_all_taken ex 10 counter 0 h

/-- C6 witness: the failure half applied to a store on which every name is
taken. -/
theorem c6_witness :
    app_emfile_find_available_filename (fun _ => true) 10 0 0 = none :=
  c6_find_available_filename.2 (fun _ => true) 0 (fun _ _ => rfl)

/-- Helper for C7: for a remaining count of at least 2 (and within uint32
range) one fill-loop iteration subtracts exactly 2. -/
lemma i2s_write_pair_ge_two (r : Nat) (h2 : 2 ≤ r) (hlt : r < U32_MOD) :
    i2s_write_pair r = r - 2 := by
  unfold i2s_write_pair
  rw [if_pos (by omega)]
  rw [show r + (U32_MOD - 2) = (r - 2) + U32_MOD by
    have : (2 : Nat) ≤ U32_MOD := by decide
    omega]
  rw [Nat.add_mod_right]
  exact Nat.mod_eq_of_lt (by omega)

/-- Helper for C7: while 2 * k samples of headroom remain, k fill-loop
iterations decrement the remaining count linearly, with no wrap. -/
lemma i2s_drain_linear : ∀ k n, n < U32_MOD → 2 * k ≤ n → i2s_drain k n = n - 2 * k := by
  intro k
  induction k with
  | zero => intro n _ _; simp [i2s_drain]
  | succ m ih =>
    intro n hlt hk
    show i2s_drain m (i2s_write_pair n) = n - 2 * (m + 1)
    rw [i2s_write_pair_ge_two n (by omega) hlt]
    rw [ih (n - 2) (by omega) (by omega)]
    omega

/-- Helper for C7: the fill loop preserves oddness of the remaining count
(uint32 wrap keeps parity, as 2^32 is even), so an odd count never becomes
zero. -/
lemma i2s_drain_odd : ∀ k r, r % 2 = 1 → i2s_drain k r % 2 = 1 := by
  intro k
  induction k with
  | zero => intro r h; simpa [i2s_drain] using h
  | succ m ih =>
    intro r h
    show i2s_drain m (i2s_write_pair r) % 2 = 1
    apply ih
    unfold i2s_write_pair
    rw [if_pos (by omega)]
    rw [Nat.mod_mod_of_dvd _ (by decide : (2 : Nat) ∣ U32_MOD)]
    have : U32_MOD - 2 = 4294967294 := by decide
    omega

/-- C7 counterexample: a delivered chunk with the odd sample count 1.  The
first drain step executes the uint32 `remaining -= 2` and wraps to
2^32 - 1, and the remaining count never reaches zero thereafter (it stays
odd forever), so the Feeder's poll for zero is never satisfied. -/
theorem c7_odd_chunk_never_drains :
    i2s_write_pair 1 = U32_MOD - 1 ∧ ¬ ∃ k, i2s_drain k 1 = 0 := by
  constructor
  · decide
  · rintro ⟨k, hk⟩
    have h := i2s_drain_odd k 1 rfl
    rw [hk] at h
    exact absurd h (by decide)

/-- C7 amended: for every even chunk sample count n (within uint32 range)
the caller-visible remaining count, decremented by 2 per fill-loop
iteration, counts down linearly and reaches exactly zero after n / 2
iterations — it never skips past zero nor wraps.  For odd counts the final
decrement wraps instead (see the counterexample). -/
theorem c7_even_chunk_drains_exactly :
    ∀ n, n < U32_MOD → n % 2 = 0 →
      (∀ k, k ≤ n / 2 → i2s_drain k n = n - 2 * k) ∧ i2s_drain (n / 2) n = 0 := by
  intro n hlt he
  have main : ∀ k, k ≤ n / 2 → i2s_drain k n = n - 2 * k := by
    intro k hk
    exact i2s_drain_linear k n hlt (by omega)
  refine ⟨main, ?_⟩
  rw [main (n / 2) le_rfl]
  omega

/-- C7 witness: a chunk of 6 samples drains to exactly zero in 3 steps. -/
theorem c7_witness : i2s_drain (6 / 2) 6 = 0 :=
  (c7_even_chunk_drains_exactly 6 (by decide) rfl).2

/-- Helper for C8: the bounded wait exits after at most `fuel` further
polls, and an exit before the budget is spent means the exit poll read a
zero remaining count. -/
lemma playback_timeout_wait_spec (trace : Nat → Nat) :
    ∀ fuel t,
      playback_timeout_wait trace fuel t ≤ t + fuel ∧
      (playback_timeout_wait trace fuel t < t + fuel →
        trace (playback_timeout_wait trace fuel t) = 0) := by
  intro fuel
  induction fuel with
  | zero =>
    intro t
    simp only [playback_timeout_wait, Nat.add_zero]
    exact ⟨le_rfl, fun h => absurd h (lt_irrefl t)⟩
  | succ m ih =>
    intro t
    by_cases h : 0 < trace t
    · have e : playback_timeout_wait trace (m + 1) t = playback_timeout_wait trace m (t + 1) := by
        simp [playback_timeout_wait, h]
      obtain ⟨ih1, ih2⟩ := ih (t + 1)
      rw [e]
      exact ⟨by omega, fun hlt => ih2 (by omega)⟩
    · have e : playback_timeout_wait trace (m + 1) t = t := by
        simp [playback_timeout_wait, h]
      rw [e]
      exact ⟨by omega, fun _ => by omega⟩

/-- C8 counterexample: a Sink that never drains (the poll reads remaining
count 1 forever, with the active flag set).  The single-task variant's
final-buffer wait (playback_task.c lines 227-229) and the split-variant
feeder's drain wait (part_003 lines 72-75) never terminate on this trace:
these drain-condition waits are not bounded by any timeout, so a playback
session can hang silently there. -/
theorem c8_unbounded_drain_wait_hangs :
    ¬ playback_final_wait_terminates (fun _ => 1) ∧
    ¬ feeder_drain_wait_terminates (fun _ => 1) (fun _ => true) := by
  constructor
  · rintro ⟨k, hk⟩
    exact one_ne_zero hk
  · rintro ⟨k, hk⟩
    rcases hk with h | h
    · exact one_ne_zero h
    · exact absurd h (by simp)

/-- C8 amended: the single-task streaming loop's inter-chunk wait is indeed
bounded — it always exits within its 1000-poll budget, and an exit below
the budget means the chunk drained (otherwise the loop times out and the
session aborts).  The final-buffer wait of the single-task variant and the
split-variant feeder's drain wait, however, are unbounded polls: they
terminate only when some poll reads a drained chunk (split variant: or a
cleared active flag), and on a never-draining trace they do not terminate. -/
theorem c8_wait_bounds :
    (∀ trace : Nat → Nat, playback_inner_wait trace ≤ 1000) ∧
    (∀ trace : Nat → Nat, playback_inner_wait trace < 1000 →
      trace (playback_inner_wait trace) = 0) ∧
    (∀ trace : Nat → Nat, (∀ k, trace k ≠ 0) → ¬ playback_final_wait_terminates trace) ∧
    (∀ (remaining : Nat → Nat) (active : Nat → Bool),
      (∀ k, remaining k ≠ 0 ∧ active k = true) →
      ¬ feeder_drain_wait_terminates remaining active) := by
  refine ⟨?_, ?_, ?_, ?_⟩
  · intro trace
    have h := (playback_timeout_wait_spec trace 1000 0).1
    simpa [playback_inner_wait] using h
  · intro trace hlt
    have h := (playback_timeout_wait_spec trace 1000 0).2
    simp only [playback_inner_wait] at hlt ⊢
    exact h (by omega)
  · rintro trace hall ⟨k, hk⟩
    exact hall k hk
  · rintro remaining active hall ⟨k, hk⟩
    rcases hk with h | h
    · exact (hall k).1 h
    · rw [(hall k).2] at h
      exact absurd h (by simp)

/-- Trace used by the C8 witness: the poll reads a positive remaining count
five times, then zero. -/
def trace_drains_at_five : Nat → Nat := fun k => if k < 5 then 1 else 0

/-- C8 witness: the amended theorem applied to a trace that drains at the
fifth poll and to a trace that never drains. -/
theorem c8_witness :
    playback_inner_wait trace_drains_at_five ≤ 1000 ∧
    trace_drains_at_five (playback_inner_wait trace_drains_at_five) = 0 ∧
    ¬ playback_final_wait_terminates (fun _ => 2) :=
  ⟨c8_wait_bounds.1 trace_drains_at_five,
   c8_wait_bounds.2.1 trace_drains_at_five (by decide),
   c8_wait_bounds.2.2.1 (fun _ => 2) (fun _ => two_ne_zero)⟩

/-- Helper for C9: when the Byte Store reports every write complete, the
chunked payload loop never aborts. -/
lemma wav_save_chunk_loop_all_ok (resp : byte_store_responses) (bps : Nat)
    (hw : ∀ i, resp.write_ok i = true) :
    ∀ fuel remaining idx, (wav_save_chunk_loop resp bps fuel remaining idx).isSome = true := by
  intro fuel
  induction fuel with
  | zero => intro r i; rfl
  | succ m ih =>
    intro r i
    by_cases hr : r = 0
    · simp [wav_save_chunk_loop, hr]
    · simp only [wav_save_chunk_loop, hr, if_false, hw i, if_true]
      exact ih _ _

/-- Helper for C9: if the writes before call j succeed, call j fails, and
enough samples remain for the loop to reach call j (each successful call
consumes WAV_CHUNK_SIZE / bytes_per_sample samples), then the chunk loop
aborts with none. -/
lemma wav_save_chunk_loop_first_fail (resp : byte_store_responses) (bps : Nat)
    (hbps : 0 < WAV_CHUNK_SIZE / bps) :
    ∀ fuel remaining idx j,
      remaining ≤ fuel →
      (∀ i, idx ≤ i → i < j → resp.write_ok i = true) →
      resp.write_ok j = false →
      idx ≤ j →
      (j - idx) * (WAV_CHUNK_SIZE / bps) < remaining →
      wav_save_chunk_loop resp bps fuel remaining idx = none := by
  intro fuel
  induction fuel with
  | zero =>
    intro remaining idx j hrf _ _ _ hreach
    omega
  | succ m ih =>
    intro remaining idx j hrf hok hfail hij hreach
    have hr0 : ¬ remaining = 0 := by omega
    simp only [wav_save_chunk_loop]
    rw [if_neg hr0]
    by_cases hj : idx = j
    · subst hj
      simp [hfail]
    · have hwi : resp.write_ok idx = true := hok idx le_rfl (by omega)
      have hslt : WAV_CHUNK_SIZE / bps < remaining := by
        have h1 : 1 * (WAV_CHUNK_SIZE / bps) ≤ (j - idx) * (WAV_CHUNK_SIZE / bps) :=
          Nat.mul_le_mul_right _ (by omega)
        omega
      simp only [hwi, if_pos hslt, if_true]
      apply ih
      · omega
      · intro i h1 h2
        exact hok i (by omega) h2
      · exact hfail
      · omega
      · have ha : j - idx = (j - (idx + 1)) + 1 := by omega
        rw [ha, Nat.add_mul, one_mul] at hreach
        omega

/-- Byte Store responses in which every operation succeeds except the
flush (FS_SyncFile). -/
def sync_fail_responses : byte_store_responses :=
  ⟨true, true, fun _ => true, false, true⟩

/-- Byte Store responses in which every operation succeeds. -/
def all_ok_responses : byte_store_responses :=
  ⟨true, true, fun _ => true, true, true⟩

/-- C9 counterexample: a save in which every write succeeds and the close
succeeds but FS_SyncFile fails.  The code only logs a warning for the
failed flush and the operation still reports success — a flush failure
does not abort the save, contrary to the claim. -/
theorem c9_sync_failure_reports_success :
    sync_fail_responses.sync_ok = false ∧
    (app_wav_save_from_buffer sync_fail_responses 1 16000 2 16).success = true ∧
    (app_wav_save_from_buffer sync_fail_responses 1 16000 2 16).sync_warned = true := by
  refine ⟨rfl, by decide, by decide⟩

/-- C9 amended: whenever a file handle was opened it is closed again on
every path (no error path leaks the handle); a failed header write, a
failed payload-chunk write and a failed close each make the save report
failure (the failed-write paths closing the handle); and when the store
completes every write and the close, the save reports success regardless
of the FS_SyncFile result — a flush failure is only warned about, never
an abort. -/
theorem c9_error_paths :
    ∀ (resp : byte_store_responses) (n rate ch bits : Nat),
      ((app_wav_save_from_buffer resp n rate ch bits).opened = true →
        (app_wav_save_from_buffer resp n rate ch bits).closed = true) ∧
      (resp.write_ok 0 = false →
        (app_wav_save_from_buffer resp n rate ch bits).success = false) ∧
      (resp.close_ok = false →
        (app_wav_save_from_buffer resp n rate ch bits).success = false) ∧
      (resp.mounted = true → resp.open_ok = true → (∀ i, resp.write_ok i = true) →
        (app_wav_save_from_buffer resp n rate 2 16).success = resp.close_ok) ∧
      (∀ k, 1 ≤ k → resp.mounted = true → resp.open_ok = true →
        (∀ i, i < k → resp.write_ok i = true) → resp.write_ok k = false →
        (k - 1) * (WAV_CHUNK_SIZE / 2) < (n * 2) % U32_MOD →
        app_wav_save_from_buffer resp n rate 2 16 = ⟨false, true, true, false⟩) := by
  intro resp n rate ch bits
  refine ⟨?_, ?_, ?_, ?_, ?_⟩
  · unfold app_wav_save_from_buffer
    dsimp only
    split_ifs <;> (try split) <;> simp_all
  · intro hw0
    unfold app_wav_save_from_buffer
    dsimp only
    split_ifs <;> (try split) <;> simp_all
  · intro hc
    unfold app_wav_save_from_buffer
    dsimp only
    split_ifs <;> (try split) <;> simp_all
  · intro hm ho hw
    have hsome := wav_save_chunk_loop_all_ok resp 2 hw
      ((n * 2) % U32_MOD) ((n * 2) % U32_MOD) 1
    obtain ⟨v, hv⟩ := Option.isSome_iff_exists.mp hsome
    simp only [app_wav_save_from_buffer, hm, ho, hw 0]
    norm_num
    rw [hv]
    cases hcl : resp.close_ok <;> simp [hcl]
  · intro k hk hm ho hok hfail hreach
    have hloop : wav_save_chunk_loop resp 2 ((n * 2) % U32_MOD) ((n * 2) % U32_MOD) 1 = none := by
      apply wav_save_chunk_loop_first_fail resp 2 (by decide) ((n * 2) % U32_MOD)
        ((n * 2) % U32_MOD) 1 k le_rfl ?_ hfail hk hreach
      intro i _ h2
      exact hok i h2
    simp only [app_wav_save_from_buffer, hm, ho, hok 0 hk]
    norm_num
    rw [hloop]

/-- Byte Store responses in which the header write (call 0) succeeds but
the first payload-chunk write (call 1) fails. -/
def payload_write_fail_responses : byte_store_responses :=
  ⟨true, true, fun i => i == 0, true, true⟩

/-- C9 witness: the amended theorem applied to an all-successful store and
to a store whose first payload-chunk write fails. -/
theorem c9_witness :
    (app_wav_save_from_buffer all_ok_responses 5 16000 2 16).success = true ∧
    app_wav_save_from_buffer payload_write_fail_responses 5000 16000 2 16 =
      ⟨false, true, true, false⟩ := by
  constructor
  · have h := (c9_error_paths all_ok_responses 5 16000 2 16).2.2.2.1 rfl rfl (fun _ => rfl)
    simpa [all_ok_responses] using h
  · exact (c9_error_paths payload_write_fail_responses 5000 16000 2 16).2.2.2.2 1 le_rfl
      rfl rfl
      (fun i hi => by
        have hi0 : i = 0 := by omega
        simp [payload_write_fail_responses, hi0])
      rfl
      (by decide)

end GuiProject
